import Mathlib

/-!
# CurrencyDashboard request-governance layer: a shallow embedding

This file embeds the core of `server.mjs` of the CurrencyDashboard
repository — the rate limiter, the response cache, input validation, the
OpenAI client with its retry logic, and the `/api/analysis` handler — as
executable Lean definitions, and proves or refutes the specification's
claims about them.

Conventions of the embedding:
* JS numbers that carry market parameters are modelled as exact rationals
  (`ℚ`); timestamps (`Date.now()`, milliseconds) as integers (`ℤ`).
* A JS value that is missing or not a finite number after `Number(...)`
  conversion is modelled as `none : Option ℚ`.
* A JS `Map` is modelled as an association list with unique keys;
  `Map.get`/`Map.set`/`Map.delete` become `findEntry`/`mapSet`/`eraseKey`.
* `JSON.stringify` applied to the five-field cache-key object literal
  (fixed field order, shortest round-trip number printing) is injective on
  the five numeric fields, so the produced key string is modelled by the
  quintuple of field values itself.
* Nondeterminism (`Math.random()`) is modelled by an explicit index
  parameter; the network is modelled by an oracle mapping the attempt
  number to the outcome of that `fetch`.
-/

namespace CurrencyDashboard

/-- The five numeric market parameters once they are known to be finite
numbers.  This is also the cache-key object literal
`{ fedRate, exchangeRate, stockKrw, goldKrw, bond }` of the handler. -/
structure AnalysisParams where
  fedRate : ℚ
  exchangeRate : ℚ
  stockKrw : ℚ
  goldKrw : ℚ
  bond : ℚ
deriving DecidableEq, Repr

/-- The raw request body fields as destructured by the handler; `none`
models a field that is missing or not a finite number after `Number(...)`
conversion (`undefined`, `NaN`, `Infinity`, a non-numeric string). -/
structure AnalysisRequest where
  fedRate : Option ℚ
  exchangeRate : Option ℚ
  stockKrw : Option ℚ
  goldKrw : Option ℚ
  bond : Option ℚ
deriving DecidableEq, Repr

-- ==================== RATE LIMITER ====================

/-- `class RateLimiter` — `maxPerMinute`/`maxPerHour` limits plus the
shared `requests` array of `{clientId, time}` records (push appends). -/
structure RateLimiter where
  maxPerMinute : ℕ
  maxPerHour : ℕ
  requests : List (String × ℤ)
deriving DecidableEq, Repr

/-- `RateLimiter.isAllowed(clientId)` at time `now` (`Date.now()`).
Prunes entries at most one hour old, counts this client's entries inside
the minute window and inside the whole (pruned) hour window, denies when
either count is at capacity, and otherwise appends `(clientId, now)`.
Returns the decision together with the mutated limiter state. -/
def RateLimiter.isAllowed (rl : RateLimiter) (clientId : String) (now : ℤ) :
    Bool × RateLimiter :=
  let oneMinuteAgo := now - 60 * 1000
  let oneHourAgo := now - 60 * 60 * 1000
  let pruned := rl.requests.filter (fun r => oneHourAgo < r.2)
  let recentMinute :=
    (pruned.filter (fun r => r.1 = clientId ∧ oneMinuteAgo < r.2)).length
  let recentHour := (pruned.filter (fun r => r.1 = clientId)).length
  if rl.maxPerMinute ≤ recentMinute then
    (false, { rl with requests := pruned })
  else if rl.maxPerHour ≤ recentHour then
    (false, { rl with requests := pruned })
  else
    (true, { rl with requests := pruned ++ [(clientId, now)] })

/-- Run a sequence of `isAllowed` checks for one client at the given
times, threading the limiter state; returns the list of decisions and the
final state. -/
def runChecks (rl : RateLimiter) (clientId : String) : List ℤ → List Bool × RateLimiter
  | [] => ([], rl)
  | t :: ts =>
      let r := rl.isAllowed clientId t
      let rest := runChecks r.2 clientId ts
      (r.1 :: rest.1, rest.2)

-- ==================== RESPONSE CACHE ====================

/-- A stored cache record `{data, timestamp}`. -/
structure CacheEntry where
  data : String
  timestamp : ℤ
deriving DecidableEq, Repr

/-- First value bound to `k` in an association list (JS `Map.get`). -/
def findEntry {α β : Type} [DecidableEq α] (k : α) : List (α × β) → Option β
  | [] => none
  | e :: rest => if e.1 = k then some e.2 else findEntry k rest

/-- Bind `k` to `v`, replacing an existing binding in place (JS `Map.set`). -/
def mapSet {α β : Type} [DecidableEq α] (k : α) (v : β) : List (α × β) → List (α × β)
  | [] => [(k, v)]
  | e :: rest => if e.1 = k then (k, v) :: rest else e :: mapSet k v rest

/-- Remove the binding of `k` (JS `Map.delete`; keys are unique in a Map,
so removing the first occurrence is removing the only one). -/
def eraseKey {α β : Type} [DecidableEq α] (k : α) : List (α × β) → List (α × β)
  | [] => []
  | e :: rest => if e.1 = k then rest else e :: eraseKey k rest

/-- `class ResponseCache` — the entry `Map` and the TTL in seconds
(default 1800). -/
structure ResponseCache where
  cache : List (AnalysisParams × CacheEntry)
  ttlSeconds : ℤ
deriving DecidableEq, Repr

/-- `ResponseCache.getKey(input)` is `JSON.stringify(input)`.  On the
handler's fixed-shape key object this serialization is injective in the
five numeric fields, so the key is modelled by the quintuple itself. -/
def ResponseCache.getKey (input : AnalysisParams) : AnalysisParams := input

/-- `ResponseCache.get(input)` at time `now`: a missing entry is a miss; an
entry strictly older than `ttlSeconds * 1000` milliseconds is deleted and
reported as a miss; otherwise the stored data is returned.  The possibly
mutated cache is returned alongside. -/
def ResponseCache.get (rc : ResponseCache) (input : AnalysisParams) (now : ℤ) :
    Option String × ResponseCache :=
  let key := ResponseCache.getKey input
  match findEntry key rc.cache with
  | none => (none, rc)
  | some cached =>
      if rc.ttlSeconds * 1000 < now - cached.timestamp then
        (none, { rc with cache := eraseKey key rc.cache })
      else
        (some cached.data, rc)

/-- `ResponseCache.set(input, data)` at time `now`: unconditionally store
`{data, timestamp: now}` under the key. -/
def ResponseCache.set (rc : ResponseCache) (input : AnalysisParams) (data : String)
    (now : ℤ) : ResponseCache :=
  { rc with cache := mapSet (ResponseCache.getKey input) ⟨data, now⟩ rc.cache }

-- ==================== INPUT VALIDATION ====================

/-- The four distinct failure messages `validateAnalysisInput` can return:
`notFinite` = "유효한 숫자 데이터가 필요합니다." (some field is not a finite
number), `fedRateRange` = "Fed 금리는 -5% ~ 20% 범위여야 합니다.",
`exchangeRateRange` = "환율은 500 ~ 2500 KRW/USD 범위여야 합니다.",
`assetNegative` = "자산 값은 0 이상이어야 합니다.". -/
inductive ValidationError where
  | notFinite
  | fedRateRange
  | exchangeRateRange
  | assetNegative
deriving DecidableEq, Repr

deriving instance DecidableEq for Except

/-- `validateAnalysisInput(data)`.  The finiteness of all five
`Number(...)`-converted fields is checked first; then the three range
checks run in source order, each returning immediately on failure.
`.ok` carries the five (now known finite) values the handler goes on to
use, mirroring `{valid: true}` followed by the handler's reuse of the
destructured fields. -/
def validateAnalysisInput (d : AnalysisRequest) :
    Except ValidationError AnalysisParams :=
  match d.fedRate, d.exchangeRate, d.stockKrw, d.goldKrw, d.bond with
  | some fedRate, some exchangeRate, some stockKrw, some goldKrw, some bond =>
      if fedRate < -5 ∨ 20 < fedRate then .error .fedRateRange
      else if exchangeRate < 500 ∨ 2500 < exchangeRate then .error .exchangeRateRange
      else if stockKrw < 0 ∨ goldKrw < 0 ∨ bond < 0 then .error .assetNegative
      else .ok ⟨fedRate, exchangeRate, stockKrw, goldKrw, bond⟩
  | _, _, _, _, _ => .error .notFinite

-- ==================== TEST MODE MOCK DATA ====================

/-- The fixed `analyses` array of `getMockAnalysis`: three hard-coded,
non-empty, pairwise distinct mock market analyses. -/
def mockAnalyses : List String :=
  ["**시장 현황 진단**
- 중절기를 맞이한 연준의 신중한 기조가 유지되고 있습니다.
- 환율 상승세와 원금리 하향 추세가 동시 진행 중입니다.

**한국 투자자용 액션**
- 미국주(S&P500)는 장기 매수 관점에서 분할 매수 진행 추천
- 달러 뱅킹: 정기적인 환율 헤지 및 포지션 조정
- 채권 포함 포트폴리오 구성으로 변동성 완화

**리스크 경고**
- 연준의 급격한 금리 인상 가능성 주시 필요
- 지정학적 이슈 발생 시 환율 급등 가능성 경고",

   "**시장 현황 진단**
- 금리 인상 사이클에 진입한 상황으로 보수적 운영이 필요합니다.
- 고금리 국면에서 채권의 매력도가 상승 중입니다.

**한국 투자자용 액션**
- 혼합자산펀드 또는 로보어드바이저를 통한 자동 리밸런싱 추천
- 미국 기술주보다 금융주/에너지주 비중 증대
- 황금 비율(주식 60/채권 40) 포트폴리오 구성 검토

**리스크 경고**
- 강한 달러는 수출주에 악영향을 미칠 수 있습니다.
- 인플레이션 재가속 시 주가 급락 가능성 존재",

   "**시장 현황 진단**
- 현물 자산(금, 주식) 가입 타이밍이 좋아 보입니다.
- 더 낮은 환율은 기대하기 어려울 것으로 판단됩니다.

**한국 투자자용 액션**
- 적극적 성장주 비중 확대 (NASDAQ 연동 ETF 추천)
- 금 포지션을 인플레 헤지용으로 5-10% 추가
- 배당주 중심으로 미국주 구성하기

**리스크 경고**
- 테이퍼링 발표 시 주가 변동성 급증 가능
- 경기침체 신호 시 방어적 포지셔닝 필요"]

/-- `getMockAnalysis(...)` returns `analyses[Math.floor(Math.random()*3)]`;
the random draw `Math.floor(Math.random() * analyses.length)`, a uniform
integer in `{0, 1, 2}`, is made explicit as the index `idx`. -/
def getMockAnalysis (idx : ℕ) : String :=
  mockAnalyses.getD idx ""

-- ==================== OPENAI CLIENT WITH RETRY ====================

/-- The outcome of one `fetch` to the upstream service, as observed by one
execution of the `try` block of `makeRequest`:
* `httpOk content` — `response.ok`; `content` is
  `result.choices[0]?.message?.content` (`none` when the field is missing,
  possibly `some ""`);
* `httpError status msg` — `!response.ok`, with the HTTP status and the
  upstream `errorData.error?.message`;
* `timeout` — the 30 s timer fired and `fetch` rejected with `AbortError`;
* `networkError msg` — `fetch` rejected with any other error. -/
inductive AttemptOutcome where
  | httpOk (content : Option String)
  | httpError (status : ℕ) (msg : String)
  | timeout
  | networkError (msg : String)
deriving DecidableEq, Repr

/-- The errors `makeRequest` can throw to its caller:
`apiError status msg` = `OpenAI API Error: status - msg`,
`timeoutError` = `OpenAI API request timeout (30s)`,
`netError msg` = a rethrown fetch-level error. -/
inductive ReqError where
  | apiError (status : ℕ) (msg : String)
  | timeoutError
  | netError (msg : String)
deriving DecidableEq, Repr

/-- JS `content || null`: the empty string is falsy, so it collapses to
`null` just like a missing field. -/
def orNull : Option String → Option String
  | none => none
  | some s => if s = "" then none else some s

/-- `OpenAIClient.makeRequest(messages, retryCount)` with
`this.maxRetries = maxRetries`.  The upstream is the oracle `behavior`
mapping the attempt number (= the `retryCount` of that frame) to its
outcome.  Returns the settled result together with the total number of
`fetch` attempts performed.

Faithful control flow of the source:
* `response.ok` → return `result.choices[0]?.message?.content || null`;
* `!response.ok` with status 429 and retries left → recurse;
* any other `!response.ok` → `throw new Error(...)`, which is caught by
  this same invocation's `catch` block: its name is not `AbortError`, so
  with retries left it recurses, else it rethrows;
* `AbortError` → the `catch` block throws the timeout error immediately
  (this branch precedes the retry branch, so a timeout is never retried);
* any other rejection → retries left ? recurse : rethrow. -/
def makeRequest (maxRetries : ℕ) (behavior : ℕ → AttemptOutcome)
    (retryCount : ℕ) : Except ReqError (Option String) × ℕ :=
  match behavior retryCount with
  | .httpOk content => (.ok (orNull content), 1)
  | .httpError status msg =>
      if h : status = 429 ∧ retryCount < maxRetries then
        let r := makeRequest maxRetries behavior (retryCount + 1)
        (r.1, r.2 + 1)
      else if h' : retryCount < maxRetries then
        let r := makeRequest maxRetries behavior (retryCount + 1)
        (r.1, r.2 + 1)
      else
        (.error (.apiError status msg), 1)
  | .timeout => (.error .timeoutError, 1)
  | .networkError msg =>
      if h : retryCount < maxRetries then
        let r := makeRequest maxRetries behavior (retryCount + 1)
        (r.1, r.2 + 1)
      else
        (.error (.netError msg), 1)
termination_by maxRetries + 1 - retryCount
decreasing_by
  all_goals omega

-- ==================== API KEY / TEST MODE ====================

/-- Whether `pat` is a prefix of a character list. -/
def charsStartWith : List Char → List Char → Bool
  | [], _ => true
  | _ :: _, [] => false
  | p :: ps, c :: cs => p = c && charsStartWith ps cs

/-- Whether `pat` occurs contiguously inside a character list. -/
def charsContain (pat : List Char) : List Char → Bool
  | [] => pat.isEmpty
  | c :: cs => charsStartWith pat (c :: cs) || charsContain pat cs

/-- JS `s.includes(pat)`: `pat` occurs as a contiguous substring of `s`. -/
def jsIncludes (s pat : String) : Bool :=
  charsContain pat.data s.data

/-- `process.env.OPENAI_API_KEY && !process.env.OPENAI_API_KEY.includes('YOUR_KEY')`:
an unset variable (`none`) and the empty string are falsy; otherwise the
key must not contain the placeholder `YOUR_KEY`. -/
def hasApiKeyOf (envKey : Option String) : Bool :=
  match envKey with
  | none => false
  | some k => ¬ k = "" ∧ ¬ jsIncludes k "YOUR_KEY"

-- ==================== /api/analysis HANDLER ====================

/-- The mutable state the `/api/analysis` handler shares across requests:
the module-level `rateLimiter` and `responseCache` singletons. -/
structure ServerState where
  limiter : RateLimiter
  cache : ResponseCache
deriving DecidableEq, Repr

/-- The response classes the `/api/analysis` handler can produce:
* `rateLimited` — 429 with the fixed body
  `{error: '요청 수 제한을 초과했습니다. 잠시 후 다시 시도하세요.'}` (no other fields);
* `badInput e` — 400 with `{error: <validation message>}`;
* `cacheHit a` — 200 with `{analysis: a, cached: true, ...}`;
* `emptyAnalysis` — 500 `'분석 결과를 생성하지 못했습니다.'` (falsy analysis);
* `fresh a` — 200 with `{analysis: a, cached: false, ...}`;
* `serverError e` — the outer catch: 500 `'서버 오류가 발생했습니다.'`. -/
inductive HandlerResult where
  | rateLimited
  | badInput (e : ValidationError)
  | cacheHit (analysis : String)
  | emptyAnalysis
  | fresh (analysis : String)
  | serverError (e : ReqError)
deriving DecidableEq, Repr

/-- JS truthiness of a string-or-null value (`if (s)`): `null` (and
`undefined`) and the empty string are falsy, any other string is truthy. -/
def jsTruthy : Option String → Bool
  | none => false
  | some s => ¬ s = ""

/-- The `POST /api/analysis` branch of the request handler, with every
effect made explicit: `now` is `Date.now()` for this request, `envKey` is
`process.env.OPENAI_API_KEY`, `mockIdx` is the random draw used if test
mode is reached, and `behavior` is the upstream oracle used if a real call
is made.  Returns the response class, the new server state, and the number
of upstream `fetch` calls performed.

Source order: rate limiting first (consuming a slot when admitted), then
body parsing and validation, then the cache lookup — served only when the
cached value is truthy (`if (cachedAnalysis)`), so a cached empty string
falls through — then the OpenAI client (test mode when no valid key), the
falsy-analysis check (`if (!analysis)`), and finally the cache store. -/
def handleAnalysis (st : ServerState) (clientId : String) (now : ℤ)
    (req : AnalysisRequest) (envKey : Option String) (mockIdx : ℕ)
    (behavior : ℕ → AttemptOutcome) : HandlerResult × ServerState × ℕ :=
  let rlRes := st.limiter.isAllowed clientId now
  let limiter := rlRes.2
  if ¬ rlRes.1 then
    (.rateLimited, ⟨limiter, st.cache⟩, 0)
  else
    match validateAnalysisInput req with
    | .error e => (.badInput e, ⟨limiter, st.cache⟩, 0)
    | .ok cacheKey =>
        let cacheRes := st.cache.get cacheKey now
        let cache := cacheRes.2
        let cachedAnalysis := cacheRes.1
        if jsTruthy cachedAnalysis then
          (.cacheHit (cachedAnalysis.getD ""), ⟨limiter, cache⟩, 0)
        else
          let hasApiKey := hasApiKeyOf envKey
          let analysisRes : Except ReqError (Option String) × ℕ :=
            if ¬ hasApiKey then
              (.ok (some (getMockAnalysis mockIdx)), 0)
            else
              makeRequest 3 behavior 0
          match analysisRes.1 with
          | .error e => (.serverError e, ⟨limiter, cache⟩, analysisRes.2)
          | .ok analysis =>
              if ¬ jsTruthy analysis then
                (.emptyAnalysis, ⟨limiter, cache⟩, analysisRes.2)
              else
                (.fresh (analysis.getD ""),
                  ⟨limiter, cache.set cacheKey (analysis.getD "") now⟩,
                  analysisRes.2)

-- ==================== SPEC-SIDE MODELS (for refinement claims) ====================

/-- JS `Math.round`: round half towards positive infinity. -/
def jsRound (x : ℚ) : ℤ := ⌊x + 1 / 2⌋

/-- Modelled from the spec (§3 CacheKey, §4.2): the quantized cache key —
each of the five numeric request fields rounded to its fixed bucket width
(the rate-like field to the nearest quarter unit, the price-like fields to
the nearest ten / five / two units, the bond index to the nearest unit, the
widths the repository's improvement report documents).  The source's
`ResponseCache.getKey` is to be compared against this. -/
def specBucketKey (p : AnalysisParams) : AnalysisParams :=
  { fedRate := (jsRound (p.fedRate * 4) : ℚ) / 4
    exchangeRate := (jsRound (p.exchangeRate / 10) : ℚ) * 10
    stockKrw := (jsRound (p.stockKrw / 5) : ℚ) * 5
    goldKrw := (jsRound (p.goldKrw / 2) : ℚ) * 2
    bond := (jsRound p.bond : ℚ) }

/-- Whether a present field value violates the fed-rate bounds. -/
def fedRateViolated (v : Option ℚ) : Bool :=
  match v with
  | some x => x < -5 ∨ 20 < x
  | none => false

/-- Whether a present field value violates the exchange-rate bounds. -/
def exchangeRateViolated (v : Option ℚ) : Bool :=
  match v with
  | some x => x < 500 ∨ 2500 < x
  | none => false

/-- Whether a present asset-like field value is negative. -/
def assetViolated (v : Option ℚ) : Bool :=
  match v with
  | some x => x < 0
  | none => false

/-- Modelled from the spec (§6): the list of every violated field
constraint of a request, in the order the constraints are declared
(finiteness of all fields, fed-rate bounds, exchange-rate bounds,
non-negativity of the asset fields).  The spec demands the validation
error list all of these, not only the first. -/
def specViolations (d : AnalysisRequest) : List ValidationError :=
  (if d.fedRate.isNone ∨ d.exchangeRate.isNone ∨ d.stockKrw.isNone ∨
      d.goldKrw.isNone ∨ d.bond.isNone then [ValidationError.notFinite] else []) ++
  (if fedRateViolated d.fedRate then [ValidationError.fedRateRange] else []) ++
  (if exchangeRateViolated d.exchangeRate then [ValidationError.exchangeRateRange] else []) ++
  (if assetViolated d.stockKrw ∨ assetViolated d.goldKrw ∨ assetViolated d.bond
    then [ValidationError.assetNegative] else [])

/-- Which sliding window a denial is attributed to. -/
inductive Scope where
  | minute
  | hour
deriving DecidableEq, Repr

/-- Modelled from the spec (§4.1, §6): the `Denied(retryAfterSeconds, scope)`
payload a rate-limit denial must carry — the short window is evaluated
first, and `retryAfter` is the number of seconds (milliseconds rounded up
to whole seconds) until the oldest counted timestamp of the exceeded
window falls outside that window.  Returns `none` when the request would
be admitted. -/
def specDenialInfo (rl : RateLimiter) (clientId : String) (now : ℤ) :
    Option (ℤ × Scope) :=
  let pruned := rl.requests.filter (fun r => now - 60 * 60 * 1000 < r.2)
  let minuteTimes :=
    (pruned.filter (fun r => r.1 = clientId ∧ now - 60 * 1000 < r.2)).map (·.2)
  let hourTimes := (pruned.filter (fun r => r.1 = clientId)).map (·.2)
  if rl.maxPerMinute ≤ minuteTimes.length then
    some ((minuteTimes.min?.getD now + 60 * 1000 - now + 999) / 1000, .minute)
  else if rl.maxPerHour ≤ hourTimes.length then
    some ((hourTimes.min?.getD now + 60 * 60 * 1000 - now + 999) / 1000, .hour)
  else
    none

-- ==================== HELPER LEMMAS ====================

/-- One unfolding step of `makeRequest` (its defining equation, restated so
that proofs can rewrite with it without the well-founded-recursion
wrapper). -/
theorem makeRequest_unfold (maxRetries : ℕ) (behavior : ℕ → AttemptOutcome)
    (retryCount : ℕ) :
    makeRequest maxRetries behavior retryCount =
      match behavior retryCount with
      | .httpOk content => (.ok (orNull content), 1)
      | .httpError status msg =>
          if status = 429 ∧ retryCount < maxRetries then
            let r := makeRequest maxRetries behavior (retryCount + 1)
            (r.1, r.2 + 1)
          else if retryCount < maxRetries then
            let r := makeRequest maxRetries behavior (retryCount + 1)
            (r.1, r.2 + 1)
          else
            (.error (.apiError status msg), 1)
      | .timeout => (.error .timeoutError, 1)
      | .networkError msg =>
          if retryCount < maxRetries then
            let r := makeRequest maxRetries behavior (retryCount + 1)
            (r.1, r.2 + 1)
          else
            (.error (.netError msg), 1) := by
  rw [makeRequest]
  rfl

-- ==================== CLAIM C3 ====================

/-- C3 (counterexample): with an upstream that always times out and
`maxRetries = 3`, `makeRequest` performs exactly one attempt — not the
`maxRetries + 1 = 4` attempts the claim asserts — before surfacing the
terminal timeout error. -/
theorem c3_timeout_single_attempt_counterexample :
    makeRequest 3 (fun _ => AttemptOutcome.timeout) 0 =
      (Except.error ReqError.timeoutError, 1) ∧ (1 : ℕ) ≠ 3 + 1 := by
  constructor
  · rw [makeRequest_unfold]
  · decide

/-- C3 (amended): a timeout is a terminal failure, not a retryable one —
whenever the first attempt times out, `makeRequest` raises the timeout
error after exactly one attempt, whatever `maxRetries` is. -/
theorem c3_timeout_terminal (maxRetries : ℕ) (behavior : ℕ → AttemptOutcome)
    (h : behavior 0 = AttemptOutcome.timeout) :
    makeRequest maxRetries behavior 0 = (Except.error ReqError.timeoutError, 1) := by
  rw [makeRequest_unfold, h]

/-- C3 witness: the amended theorem applied at `maxRetries = 3` and the
constantly timing-out upstream. -/
theorem c3_timeout_terminal_witness :
    makeRequest 3 (fun _ => AttemptOutcome.timeout) 0 =
      (Except.error ReqError.timeoutError, 1) :=
  c3_timeout_terminal 3 (fun _ => AttemptOutcome.timeout) rfl

-- ==================== CLAIM C4 ====================

/-- Against an upstream constantly returning the same HTTP error status,
`makeRequest` started at `retryCount = rc ≤ maxRetries` performs
`maxRetries - rc + 1` attempts and then surfaces the API error: the throw
for a non-429 status is caught by the function's own catch block, which
retries it like any other failure. -/
theorem makeRequest_const_httpError (maxRetries : ℕ) (status : ℕ) (msg : String) :
    ∀ fuel rc, maxRetries - rc = fuel → rc ≤ maxRetries →
      makeRequest maxRetries (fun _ => AttemptOutcome.httpError status msg) rc =
        (Except.error (ReqError.apiError status msg), fuel + 1) := by
  intro fuel
  induction fuel with
  | zero =>
      intro rc hfuel hle
      have hrc : rc = maxRetries := by omega
      rw [makeRequest_unfold]
      simp only [hrc]
      have h1 : ¬ (status = 429 ∧ maxRetries < maxRetries) := by omega
      rw [if_neg h1, if_neg (by omega)]
  | succ n ih =>
      intro rc hfuel hle
      have hlt : rc < maxRetries := by omega
      rw [makeRequest_unfold]
      dsimp only
      by_cases h429 : status = 429
      · rw [if_pos ⟨h429, hlt⟩, ih (rc + 1) (by omega) (by omega)]
      · rw [if_neg (by tauto), if_pos hlt, ih (rc + 1) (by omega) (by omega)]

/-- C4 (counterexample): an upstream that always answers HTTP 400 ("bad
request", a client-side error other than 429) with `maxRetries = 3` is
retried: `makeRequest` performs 4 attempts, not the single attempt the
claim asserts. -/
theorem c4_client_error_retried_counterexample :
    makeRequest 3 (fun _ => AttemptOutcome.httpError 400 "Bad Request") 0 =
      (Except.error (ReqError.apiError 400 "Bad Request"), 4) ∧ (4 : ℕ) ≠ 1 := by
  constructor
  · exact makeRequest_const_httpError 3 400 "Bad Request" 3 0 rfl (by omega)
  · decide

/-- C4 (amended): a client-side (4xx) error other than 429 is *not*
terminal: the throw that should surface it is caught by the same
invocation's catch block and retried, so against an upstream constantly
returning such a status the client makes exactly `maxRetries + 1` attempts
and only then surfaces the API error. -/
theorem c4_client_error_retried (maxRetries status : ℕ) (msg : String)
    (_h4xx : 400 ≤ status ∧ status < 500) (_hnot429 : status ≠ 429) :
    makeRequest maxRetries (fun _ => AttemptOutcome.httpError status msg) 0 =
      (Except.error (ReqError.apiError status msg), maxRetries + 1) :=
  makeRequest_const_httpError maxRetries status msg maxRetries 0 (by omega) (by omega)

/-- C4 witness: the amended theorem applied to a constant HTTP 400
upstream with `maxRetries = 3`. -/
theorem c4_client_error_retried_witness :
    makeRequest 3 (fun _ => AttemptOutcome.httpError 400 "Bad Request") 0 =
      (Except.error (ReqError.apiError 400 "Bad Request"), 3 + 1) :=
  c4_client_error_retried 3 400 "Bad Request" (by omega) (by omega)

-- ==================== CLAIM C8 ====================

/-- The list of constraints the validation result actually reports to the
caller: the single error message, or nothing on success. -/
def reportedErrors (r : Except ValidationError AnalysisParams) :
    List ValidationError :=
  match r with
  | .error e => [e]
  | .ok _ => []

/-- C8 (counterexample): the input `{fedRate: 25, exchangeRate: 100,
stockKrw: 85000, goldKrw: 120000, bond: 95}` violates both the fed-rate
bounds and the exchange-rate bounds, but the returned error reports only
the fed-rate violation — the exchange-rate violation is not listed. -/
theorem c8_only_first_violation_counterexample :
    specViolations ⟨some 25, some 100, some 85000, some 120000, some 95⟩ =
      [ValidationError.fedRateRange, ValidationError.exchangeRateRange] ∧
    ¬ (∀ v ∈ specViolations ⟨some 25, some 100, some 85000, some 120000, some 95⟩,
        v ∈ reportedErrors
          (validateAnalysisInput ⟨some 25, some 100, some 85000, some 120000, some 95⟩)) := by
  constructor
  · decide
  · decide

/-- C8 (amended): `validateAnalysisInput` reports exactly the *first*
violated field constraint in the fixed check order — finiteness of every
field, fed-rate bounds, exchange-rate bounds, asset non-negativity — and
nothing else: it fails with error `err` precisely when `err` is the head
of the list of all violated constraints. -/
theorem c8_validation_reports_first_violation (d : AnalysisRequest)
    (err : ValidationError) :
    validateAnalysisInput d = .error err ↔
      (specViolations d).head? = some err := by
  obtain ⟨f, x, s, g, b⟩ := d
  rcases f with _ | f
  · simp [validateAnalysisInput, specViolations]
  rcases x with _ | x
  · simp [validateAnalysisInput, specViolations]
  rcases s with _ | s
  · simp [validateAnalysisInput, specViolations]
  rcases g with _ | g
  · simp [validateAnalysisInput, specViolations]
  rcases b with _ | b
  · simp [validateAnalysisInput, specViolations]
  by_cases h1 : f < -5 ∨ 20 < f <;>
  by_cases h2 : x < 500 ∨ 2500 < x <;>
  by_cases h3 : s < 0 ∨ g < 0 ∨ b < 0 <;>
    simp [validateAnalysisInput, specViolations, fedRateViolated,
      exchangeRateViolated, assetViolated, h1, h2, h3]

-- ==================== CLAIM C2 ====================

/-- C2 (counterexample): Scenario B input
`{fedRate: -10, exchangeRate: 1250, stockKrw: 85000, goldKrw: 120000, bond: 95}`
against a fresh server.  The handler does return the fed-rate validation
error with zero upstream calls, but the rate limiter's state is *not*
unchanged: the admission check ran first and recorded the request, so the
limiter now holds one slot for the client where it held none. -/
theorem c2_validation_consumes_slot_counterexample :
    handleAnalysis ⟨⟨30, 200, []⟩, ⟨[], 1800⟩⟩ "client" 0
        ⟨some (-10), some 1250, some 85000, some 120000, some 95⟩
        none 0 (fun _ => AttemptOutcome.timeout) =
      (HandlerResult.badInput ValidationError.fedRateRange,
        ⟨⟨30, 200, [("client", 0)]⟩, ⟨[], 1800⟩⟩, 0) ∧
    [("client", (0 : ℤ))] ≠ ([] : List (String × ℤ)) := by
  constructor
  · decide
  · decide

/-- C2 (amended): when the rate limiter admits the request and validation
then fails, the handler returns the validation error immediately — no
upstream call is made and the cache is untouched — but a rate-limit slot
*has* been consumed: the limiter is left in its post-admission state (the
pruned window with the new timestamp appended), because the admission
check precedes validation in the handler. -/
theorem c2_validation_failure_after_admission (st : ServerState)
    (clientId : String) (now : ℤ) (req : AnalysisRequest)
    (envKey : Option String) (mockIdx : ℕ) (behavior : ℕ → AttemptOutcome)
    (err : ValidationError)
    (hAllowed : (st.limiter.isAllowed clientId now).1 = true)
    (hInvalid : validateAnalysisInput req = .error err) :
    handleAnalysis st clientId now req envKey mockIdx behavior =
      (HandlerResult.badInput err,
        ⟨(st.limiter.isAllowed clientId now).2, st.cache⟩, 0) := by
  simp [handleAnalysis, hAllowed, hInvalid]

/-- C2 witness: the amended theorem applied to the Scenario B input on a
fresh server. -/
theorem c2_validation_failure_after_admission_witness :
    handleAnalysis ⟨⟨30, 200, []⟩, ⟨[], 1800⟩⟩ "client" 0
        ⟨some (-10), some 1250, some 85000, some 120000, some 95⟩
        none 0 (fun _ => AttemptOutcome.timeout) =
      (HandlerResult.badInput ValidationError.fedRateRange,
        ⟨⟨30, 200, [("client", 0)]⟩, ⟨[], 1800⟩⟩, 0) :=
  c2_validation_failure_after_admission ⟨⟨30, 200, []⟩, ⟨[], 1800⟩⟩ "client" 0
    ⟨some (-10), some 1250, some 85000, some 120000, some 95⟩
    none 0 (fun _ => AttemptOutcome.timeout) ValidationError.fedRateRange
    (by decide) rfl

-- ==================== CLAIM C5 ====================

/-- C5 (counterexample): two denial situations that the spec requires to
carry different `(retryAfter, scope)` payloads — a minute-window denial 59
seconds before the oldest counted timestamp leaves the minute window, and
an hour-window denial 3500 seconds before it leaves the hour window —
produce byte-for-byte identical responses: the handler's 429 response is a
fixed message carrying neither a `retryAfter` value nor the exceeded
window. -/
theorem c5_denial_carries_no_info_counterexample :
    (handleAnalysis ⟨⟨1, 200, [("c", 999000)]⟩, ⟨[], 1800⟩⟩ "c" 1000000
        ⟨some 3.5, some 1250, some 85000, some 120000, some 95⟩
        none 0 (fun _ => AttemptOutcome.timeout)).1 =
      (handleAnalysis ⟨⟨30, 1, [("c", 900000)]⟩, ⟨[], 1800⟩⟩ "c" 1000000
        ⟨some 3.5, some 1250, some 85000, some 120000, some 95⟩
        none 0 (fun _ => AttemptOutcome.timeout)).1 ∧
    specDenialInfo ⟨1, 200, [("c", 999000)]⟩ "c" 1000000 = some (59, Scope.minute) ∧
    specDenialInfo ⟨30, 1, [("c", 900000)]⟩ "c" 1000000 = some (3500, Scope.hour) ∧
    (some (59, Scope.minute) : Option (ℤ × Scope)) ≠ some (3500, Scope.hour) := by
  refine ⟨by decide, by decide, by decide, by decide⟩

/-- C5 (amended): when the rate limiter denies a request the handler
returns the bare `rateLimited` response — a fixed 429 body that identifies
neither how long to wait nor which window was exceeded (`isAllowed`
returns only a boolean, so the handler has no `retryAfter` or scope to
report). -/
theorem c5_denial_is_bare (st : ServerState) (clientId : String) (now : ℤ)
    (req : AnalysisRequest) (envKey : Option String) (mockIdx : ℕ)
    (behavior : ℕ → AttemptOutcome)
    (hDenied : (st.limiter.isAllowed clientId now).1 = false) :
    handleAnalysis st clientId now req envKey mockIdx behavior =
      (HandlerResult.rateLimited,
        ⟨(st.limiter.isAllowed clientId now).2, st.cache⟩, 0) := by
  simp [handleAnalysis, hDenied]

/-- C5 witness: the amended theorem applied to the minute-window denial
state of the counterexample. -/
theorem c5_denial_is_bare_witness :
    handleAnalysis ⟨⟨1, 200, [("c", 999000)]⟩, ⟨[], 1800⟩⟩ "c" 1000000
        ⟨some 3.5, some 1250, some 85000, some 120000, some 95⟩
        none 0 (fun _ => AttemptOutcome.timeout) =
      (HandlerResult.rateLimited,
        ⟨⟨1, 200, [("c", 999000)]⟩, ⟨[], 1800⟩⟩, 0) :=
  c5_denial_is_bare ⟨⟨1, 200, [("c", 999000)]⟩, ⟨[], 1800⟩⟩ "c" 1000000
    ⟨some 3.5, some 1250, some 85000, some 120000, some 95⟩
    none 0 (fun _ => AttemptOutcome.timeout) (by decide)

-- ==================== SHARED HANDLER-PATH LEMMAS ====================

/-- A client whose shared request log is shorter than both limits is
always admitted (the two window counts are bounded by the log length). -/
theorem isAllowed_of_short_log (rl : RateLimiter) (clientId : String) (now : ℤ)
    (h1 : rl.requests.length < rl.maxPerMinute)
    (h2 : rl.requests.length < rl.maxPerHour) :
    (rl.isAllowed clientId now).1 = true := by
  unfold RateLimiter.isAllowed
  have hp : (rl.requests.filter (fun r => now - 60 * 60 * 1000 < r.2)).length ≤
      rl.requests.length := List.length_filter_le _ _
  have hmin : ((rl.requests.filter (fun r => now - 60 * 60 * 1000 < r.2)).filter
      (fun r => r.1 = clientId ∧ now - 60 * 1000 < r.2)).length ≤
      rl.requests.length :=
    le_trans (List.length_filter_le _ _) hp
  have hhr : ((rl.requests.filter (fun r => now - 60 * 60 * 1000 < r.2)).filter
      (fun r => r.1 = clientId)).length ≤ rl.requests.length :=
    le_trans (List.length_filter_le _ _) hp
  rw [if_neg (by omega), if_neg (by omega)]

/-- The admitted request path up to a cache hit: when the lookup returns a
truthy (non-empty) cached value, the handler returns it, makes zero
upstream calls, and only the limiter (slot consumed) and the cache
(possibly a lazy eviction elsewhere) change. -/
theorem handleAnalysis_cacheHit (st : ServerState) (clientId : String) (now : ℤ)
    (req : AnalysisRequest) (params : AnalysisParams) (envKey : Option String)
    (mockIdx : ℕ) (behavior : ℕ → AttemptOutcome) (a : String)
    (hAllowed : (st.limiter.isAllowed clientId now).1 = true)
    (hValid : validateAnalysisInput req = .ok params)
    (hHit : (st.cache.get params now).1 = some a)
    (hne : ¬ a = "") :
    handleAnalysis st clientId now req envKey mockIdx behavior =
      (HandlerResult.cacheHit a,
        ⟨(st.limiter.isAllowed clientId now).2, (st.cache.get params now).2⟩, 0) := by
  simp [handleAnalysis, hAllowed, hValid, hHit, jsTruthy, hne]

/-- The admitted request path on a cache miss with no valid API key: the
handler silently serves the mock analysis selected by the random draw as
a fresh success, stores it in the cache, and makes zero upstream calls. -/
theorem handleAnalysis_testMode (st : ServerState) (clientId : String) (now : ℤ)
    (req : AnalysisRequest) (params : AnalysisParams) (envKey : Option String)
    (mockIdx : ℕ) (behavior : ℕ → AttemptOutcome)
    (hAllowed : (st.limiter.isAllowed clientId now).1 = true)
    (hValid : validateAnalysisInput req = .ok params)
    (hMiss : (st.cache.get params now).1 = none)
    (hKey : hasApiKeyOf envKey = false)
    (hne : ¬ getMockAnalysis mockIdx = "") :
    handleAnalysis st clientId now req envKey mockIdx behavior =
      (HandlerResult.fresh (getMockAnalysis mockIdx),
        ⟨(st.limiter.isAllowed clientId now).2,
          ((st.cache.get params now).2).set params (getMockAnalysis mockIdx) now⟩,
        0) := by
  simp [handleAnalysis, hAllowed, hValid, hMiss, hKey, hne, jsTruthy]

/-- The admitted request path on a cache miss with a valid API key and an
upstream call that settles successfully with a non-empty analysis after
`n` attempts: the handler returns the fresh analysis, stores it, and
reports `n` upstream calls. -/
theorem handleAnalysis_freshCall (st : ServerState) (clientId : String) (now : ℤ)
    (req : AnalysisRequest) (params : AnalysisParams) (envKey : Option String)
    (mockIdx : ℕ) (behavior : ℕ → AttemptOutcome) (a : String) (n : ℕ)
    (hAllowed : (st.limiter.isAllowed clientId now).1 = true)
    (hValid : validateAnalysisInput req = .ok params)
    (hMiss : (st.cache.get params now).1 = none)
    (hKey : hasApiKeyOf envKey = true)
    (hmk : makeRequest 3 behavior 0 = (.ok (some a), n))
    (hne : ¬ a = "") :
    handleAnalysis st clientId now req envKey mockIdx behavior =
      (HandlerResult.fresh a,
        ⟨(st.limiter.isAllowed clientId now).2,
          ((st.cache.get params now).2).set params a now⟩, n) := by
  simp [handleAnalysis, hAllowed, hValid, hMiss, hKey, hmk, hne, jsTruthy]

/-- The admitted request path on a cache miss with a valid API key whose
upstream call settles as a success with a falsy (missing or empty)
payload: the handler answers with the empty-analysis error and stores
nothing. -/
theorem handleAnalysis_emptySuccess (st : ServerState) (clientId : String)
    (now : ℤ) (req : AnalysisRequest) (params : AnalysisParams)
    (envKey : Option String) (mockIdx : ℕ) (behavior : ℕ → AttemptOutcome) (n : ℕ)
    (hAllowed : (st.limiter.isAllowed clientId now).1 = true)
    (hValid : validateAnalysisInput req = .ok params)
    (hMiss : (st.cache.get params now).1 = none)
    (hKey : hasApiKeyOf envKey = true)
    (hmk : makeRequest 3 behavior 0 = (.ok none, n)) :
    handleAnalysis st clientId now req envKey mockIdx behavior =
      (HandlerResult.emptyAnalysis,
        ⟨(st.limiter.isAllowed clientId now).2, (st.cache.get params now).2⟩, n) := by
  simp [handleAnalysis, hAllowed, hValid, hMiss, hKey, hmk, jsTruthy]

/-- Looking up a key immediately after binding it yields the bound value. -/
theorem findEntry_mapSet {α β : Type} [DecidableEq α] (k : α) (v : β) :
    ∀ m : List (α × β), findEntry k (mapSet k v m) = some v := by
  intro m
  induction m with
  | nil => simp [mapSet, findEntry]
  | cons e rest ih =>
      by_cases h : e.1 = k
      · simp [mapSet, findEntry, h]
      · simp [mapSet, findEntry, h, ih]

/-- With unique keys, erasing a key removes its binding entirely. -/
theorem findEntry_eraseKey {α β : Type} [DecidableEq α] (k : α) :
    ∀ m : List (α × β), (m.map Prod.fst).Nodup →
      findEntry k (eraseKey k m) = none := by
  intro m
  induction m with
  | nil => intro _; simp [eraseKey, findEntry]
  | cons e rest ih =>
      intro hnd
      rw [List.map_cons, List.nodup_cons] at hnd
      by_cases h : e.1 = k
      · rw [eraseKey, if_pos h]
        -- e.1 = k does not occur among the remaining keys
        have : ∀ m' : List (α × β), k ∉ m'.map Prod.fst →
            findEntry k m' = none := by
          intro m'
          induction m' with
          | nil => intro _; rfl
          | cons e' rest' ih' =>
              intro hmem
              rw [List.map_cons, List.mem_cons] at hmem
              push_neg at hmem
              rw [findEntry, if_neg (fun hh => hmem.1 hh.symm)]
              exact ih' hmem.2
        exact this rest (h ▸ hnd.1)
      · rw [eraseKey, if_neg h, findEntry, if_neg h]
        exact ih hnd.2

-- ==================== SCENARIO DATA ====================

/-- Scenario A of the spec: the request body
`{rate: 3.5, fx: 1250, assetA: 85000, assetB: 120000, bondIdx: 95}`. -/
def scenarioARequest : AnalysisRequest :=
  ⟨some 3.5, some 1250, some 85000, some 120000, some 95⟩

/-- The five validated Scenario A field values (also the cache key the
handler builds for them). -/
def scenarioAParams : AnalysisParams := ⟨3.5, 1250, 85000, 120000, 95⟩

-- ==================== CLAIM C9 ====================

/-- C9 (confirmed): when the upstream call settles as an HTTP success on
its first attempt but the payload field is missing or empty (so that
`content || null` collapses it to `null`), the handler answers with the
500 empty-analysis error — not with an empty answer — and writes nothing
to the cache: the final cache is exactly what the (missed) lookup left. -/
theorem c9_empty_success_is_error (st : ServerState) (clientId : String)
    (now : ℤ) (req : AnalysisRequest) (params : AnalysisParams)
    (envKey : Option String) (mockIdx : ℕ) (behavior : ℕ → AttemptOutcome)
    (content : Option String)
    (hAllowed : (st.limiter.isAllowed clientId now).1 = true)
    (hValid : validateAnalysisInput req = .ok params)
    (hMiss : (st.cache.get params now).1 = none)
    (hKey : hasApiKeyOf envKey = true)
    (hContent : behavior 0 = .httpOk content)
    (hFalsy : orNull content = none) :
    handleAnalysis st clientId now req envKey mockIdx behavior =
      (HandlerResult.emptyAnalysis,
        ⟨(st.limiter.isAllowed clientId now).2, (st.cache.get params now).2⟩, 1) := by
  have hmk : makeRequest 3 behavior 0 = (.ok none, 1) := by
    rw [makeRequest_unfold, hContent]
    dsimp only
    rw [hFalsy]
  exact handleAnalysis_emptySuccess st clientId now req params envKey mockIdx
    behavior 1 hAllowed hValid hMiss hKey hmk

/-- C9 witness: a fresh server, the Scenario A input, a configured real
API key, and an upstream that succeeds with an empty `content` field. -/
theorem c9_empty_success_is_error_witness :
    handleAnalysis ⟨⟨30, 200, []⟩, ⟨[], 1800⟩⟩ "client" 0 scenarioARequest
        (some "sk-live-key") 0 (fun _ => AttemptOutcome.httpOk (some "")) =
      (HandlerResult.emptyAnalysis,
        ⟨⟨30, 200, [("client", 0)]⟩, ⟨[], 1800⟩⟩, 1) :=
  c9_empty_success_is_error ⟨⟨30, 200, []⟩, ⟨[], 1800⟩⟩ "client" 0
    scenarioARequest scenarioAParams (some "sk-live-key") 0
    (fun _ => AttemptOutcome.httpOk (some "")) (some "")
    (by decide) (by norm_num [validateAnalysisInput, scenarioARequest, scenarioAParams])
    rfl (by decide) rfl rfl

-- ==================== CLAIM C10 ====================

/-- C10 (confirmed): with no valid API key configured (`OPENAI_API_KEY`
unset, empty, or containing the `YOUR_KEY` placeholder), a valid Scenario
A request against a fresh server silently succeeds in test mode: it
returns, with zero upstream calls, whichever of the three fixed mock
analyses the random draw selects, so two runs with identical input and
identical state can answer different texts (draws 0 and 1 differ) — until
the first result is cached, after which a second identical request within
the TTL returns the first text no matter what the second draw is. -/
theorem c10_test_mode_random_mock (envKey : Option String) (idx idx' : ℕ)
    (now' : ℤ) (behavior behavior' : ℕ → AttemptOutcome)
    (hKey : hasApiKeyOf envKey = false) (hIdx : idx < 3) (_hIdx' : idx' < 3)
    (hTtl : ¬ ((1800 : ℤ) * 1000 < now' - 0)) :
    handleAnalysis ⟨⟨30, 200, []⟩, ⟨[], 1800⟩⟩ "client" 0 scenarioARequest
        envKey idx behavior =
      (HandlerResult.fresh (getMockAnalysis idx),
        ⟨⟨30, 200, [("client", 0)]⟩,
          ⟨[(scenarioAParams, ⟨getMockAnalysis idx, 0⟩)], 1800⟩⟩, 0) ∧
    getMockAnalysis 0 ≠ getMockAnalysis 1 ∧
    (handleAnalysis
        ⟨⟨30, 200, [("client", 0)]⟩,
          ⟨[(scenarioAParams, ⟨getMockAnalysis idx, 0⟩)], 1800⟩⟩
        "client" now' scenarioARequest envKey idx' behavior').1 =
      HandlerResult.cacheHit (getMockAnalysis idx) := by
  have hne : ¬ getMockAnalysis idx = "" := by
    interval_cases idx <;> decide
  refine ⟨?_, by decide, ?_⟩
  · exact handleAnalysis_testMode ⟨⟨30, 200, []⟩, ⟨[], 1800⟩⟩ "client" 0
      scenarioARequest scenarioAParams envKey idx behavior
      (by decide) (by norm_num [validateAnalysisInput, scenarioARequest, scenarioAParams])
      rfl hKey hne
  · have hAllowed2 : ((⟨30, 200, [("client", 0)]⟩ : RateLimiter).isAllowed
        "client" now').1 = true :=
      isAllowed_of_short_log _ _ _ (by decide) (by decide)
    have hT : ¬ ((1800000 : ℤ) < now') := by omega
    have hHit : (((⟨[(scenarioAParams, ⟨getMockAnalysis idx, 0⟩)], 1800⟩ :
        ResponseCache).get scenarioAParams now')).1 = some (getMockAnalysis idx) := by
      simp [ResponseCache.get, ResponseCache.getKey, findEntry, hT]
    rw [handleAnalysis_cacheHit _ "client" now' scenarioARequest scenarioAParams
      envKey idx' behavior' (getMockAnalysis idx) hAllowed2
      (by norm_num [validateAnalysisInput, scenarioARequest, scenarioAParams])
      hHit hne]

/-- C10 witness: no key configured, first draw 0, second draw 1, second
request 5 seconds later. -/
theorem c10_test_mode_random_mock_witness :
    handleAnalysis ⟨⟨30, 200, []⟩, ⟨[], 1800⟩⟩ "client" 0 scenarioARequest
        none 0 (fun _ => AttemptOutcome.timeout) =
      (HandlerResult.fresh (getMockAnalysis 0),
        ⟨⟨30, 200, [("client", 0)]⟩,
          ⟨[(scenarioAParams, ⟨getMockAnalysis 0, 0⟩)], 1800⟩⟩, 0) ∧
    getMockAnalysis 0 ≠ getMockAnalysis 1 ∧
    (handleAnalysis
        ⟨⟨30, 200, [("client", 0)]⟩,
          ⟨[(scenarioAParams, ⟨getMockAnalysis 0, 0⟩)], 1800⟩⟩
        "client" 5000 scenarioARequest none 1 (fun _ => AttemptOutcome.timeout)).1 =
      HandlerResult.cacheHit (getMockAnalysis 0) :=
  c10_test_mode_random_mock none 0 1 5000 (fun _ => AttemptOutcome.timeout)
    (fun _ => AttemptOutcome.timeout) rfl (by decide) (by decide) (by decide)

-- ==================== CLAIM C1 ====================

/-- C1 (counterexample): the inputs `{3, 1250, 85000, 120000, 95}` and
`{3, 1252, 85000, 120000, 95}` quantize to the same CacheKey under the
spec's bucket widths (1252 rounds to the same ten-unit bucket as 1250),
yet `getKey` gives them different keys, and a second request with the
second input — immediately after the first input's result was cached —
performs one fresh upstream call instead of the zero calls the claim
promises. -/
theorem c1_no_bucketing_counterexample :
    specBucketKey ⟨3, 1250, 85000, 120000, 95⟩ =
      specBucketKey ⟨3, 1252, 85000, 120000, 95⟩ ∧
    ResponseCache.getKey ⟨3, 1250, 85000, 120000, 95⟩ ≠
      ResponseCache.getKey ⟨3, 1252, 85000, 120000, 95⟩ ∧
    (handleAnalysis
        ⟨⟨30, 200, [("client", 0)]⟩,
          ⟨[(⟨3, 1250, 85000, 120000, 95⟩, ⟨"analysis-1", 0⟩)], 1800⟩⟩
        "client" 1000 ⟨some 3, some 1252, some 85000, some 120000, some 95⟩
        (some "sk-live-key") 0
        (fun _ => AttemptOutcome.httpOk (some "analysis-2"))).2.2 = 1 ∧
    (1 : ℕ) ≠ 0 := by
  refine ⟨?_, by decide, ?_, by decide⟩
  · norm_num [specBucketKey, jsRound]
  · have h := handleAnalysis_freshCall
      ⟨⟨30, 200, [("client", 0)]⟩,
        ⟨[(⟨3, 1250, 85000, 120000, 95⟩, ⟨"analysis-1", 0⟩)], 1800⟩⟩
      "client" 1000 ⟨some 3, some 1252, some 85000, some 120000, some 95⟩
      ⟨3, 1252, 85000, 120000, 95⟩ (some "sk-live-key") 0
      (fun _ => AttemptOutcome.httpOk (some "analysis-2")) "analysis-2" 1
      (by decide) (by decide) (by decide) (by decide)
      (by rw [makeRequest_unfold]; rfl) (by decide)
    rw [h]

/-- C1 (amended): the cache key is the raw JSON serialization of the five
request fields with *no* rounding: two inputs share a key exactly when
their field values are identical, and for a request whose (identical)
key has an unexpired cached entry holding a truthy (non-empty) value —
the only kind the handler ever stores — the handler returns the cached
value with zero upstream calls and an unchanged cache. -/
theorem c1_raw_key_determinism_and_hit :
    (∀ p q : AnalysisParams,
      ResponseCache.getKey p = ResponseCache.getKey q ↔ p = q) ∧
    (∀ (st : ServerState) (clientId : String) (now : ℤ) (req : AnalysisRequest)
      (params : AnalysisParams) (entry : CacheEntry) (envKey : Option String)
      (mockIdx : ℕ) (behavior : ℕ → AttemptOutcome),
      (st.limiter.isAllowed clientId now).1 = true →
      validateAnalysisInput req = .ok params →
      findEntry (ResponseCache.getKey params) st.cache.cache = some entry →
      ¬ (st.cache.ttlSeconds * 1000 < now - entry.timestamp) →
      ¬ entry.data = "" →
      handleAnalysis st clientId now req envKey mockIdx behavior =
        (HandlerResult.cacheHit entry.data,
          ⟨(st.limiter.isAllowed clientId now).2, st.cache⟩, 0)) := by
  constructor
  · intro p q
    exact Iff.rfl
  · intro st clientId now req params entry envKey mockIdx behavior hA hV hF hFr hne
    have hGet : st.cache.get params now = (some entry.data, st.cache) := by
      unfold ResponseCache.get
      dsimp only
      rw [hF]
      dsimp only
      rw [if_neg hFr]
    have h := handleAnalysis_cacheHit st clientId now req params envKey mockIdx
      behavior entry.data hA hV (by rw [hGet]) hne
    rw [h, hGet]

/-- C1 witness: the key of the input `{3, 1250, 85000, 120000, 95}` equals
itself exactly by field identity, and a repeat of that request 1 second
after its result was cached is served from the cache with zero upstream
calls. -/
theorem c1_raw_key_determinism_and_hit_witness :
    (ResponseCache.getKey ⟨3, 1250, 85000, 120000, 95⟩ =
       ResponseCache.getKey ⟨3, 1250, 85000, 120000, 95⟩ ↔
     (⟨3, 1250, 85000, 120000, 95⟩ : AnalysisParams) =
       ⟨3, 1250, 85000, 120000, 95⟩) ∧
    handleAnalysis
        ⟨⟨30, 200, [("client", 0)]⟩,
          ⟨[(⟨3, 1250, 85000, 120000, 95⟩, ⟨"analysis-1", 0⟩)], 1800⟩⟩
        "client" 1000 ⟨some 3, some 1250, some 85000, some 120000, some 95⟩
        (some "sk-live-key") 0
        (fun _ => AttemptOutcome.httpOk (some "analysis-2")) =
      (HandlerResult.cacheHit "analysis-1",
        ⟨(RateLimiter.isAllowed ⟨30, 200, [("client", 0)]⟩ "client" 1000).2,
          ⟨[(⟨3, 1250, 85000, 120000, 95⟩, ⟨"analysis-1", 0⟩)], 1800⟩⟩, 0) :=
  ⟨c1_raw_key_determinism_and_hit.1 ⟨3, 1250, 85000, 120000, 95⟩
      ⟨3, 1250, 85000, 120000, 95⟩,
   c1_raw_key_determinism_and_hit.2
      ⟨⟨30, 200, [("client", 0)]⟩,
        ⟨[(⟨3, 1250, 85000, 120000, 95⟩, ⟨"analysis-1", 0⟩)], 1800⟩⟩
      "client" 1000 ⟨some 3, some 1250, some 85000, some 120000, some 95⟩
      ⟨3, 1250, 85000, 120000, 95⟩ ⟨"analysis-1", 0⟩ (some "sk-live-key") 0
      (fun _ => AttemptOutcome.httpOk (some "analysis-2"))
      (by decide) (by decide) (by decide) (by decide) (by decide)⟩

-- ==================== CLAIM C6 ====================

/-- C6 (confirmed): for every cache state, key and access time, an entry
strictly older than the TTL is never returned by `get` — the lookup
misses, the entry is deleted as a side effect of the access — and the
next admitted, valid request for that key performs exactly one fresh
upstream call (its first attempt succeeding), whose result is stored. -/
theorem c6_expired_never_returned (limiter : RateLimiter) (rc : ResponseCache)
    (params : AnalysisParams) (entry : CacheEntry) (clientId : String) (now : ℤ)
    (req : AnalysisRequest) (envKey : Option String) (mockIdx : ℕ)
    (behavior : ℕ → AttemptOutcome) (a : String)
    (hFound : findEntry (ResponseCache.getKey params) rc.cache = some entry)
    (hExpired : rc.ttlSeconds * 1000 < now - entry.timestamp)
    (hNodup : (rc.cache.map Prod.fst).Nodup)
    (hAllowed : (limiter.isAllowed clientId now).1 = true)
    (hValid : validateAnalysisInput req = .ok params)
    (hKey : hasApiKeyOf envKey = true)
    (hmk : makeRequest 3 behavior 0 = (.ok (some a), 1))
    (hne : ¬ a = "") :
    (rc.get params now).1 = none ∧
    findEntry (ResponseCache.getKey params) ((rc.get params now).2).cache = none ∧
    handleAnalysis ⟨limiter, rc⟩ clientId now req envKey mockIdx behavior =
      (HandlerResult.fresh a,
        ⟨(limiter.isAllowed clientId now).2,
          ((rc.get params now).2).set params a now⟩, 1) := by
  have hGet : rc.get params now =
      (none, { rc with cache := eraseKey (ResponseCache.getKey params) rc.cache }) := by
    unfold ResponseCache.get
    dsimp only
    rw [hFound]
    dsimp only
    rw [if_pos hExpired]
  refine ⟨by rw [hGet], ?_, ?_⟩
  · rw [hGet]
    exact findEntry_eraseKey _ rc.cache hNodup
  · exact handleAnalysis_freshCall ⟨limiter, rc⟩ clientId now req params envKey
      mockIdx behavior a 1 hAllowed hValid (by rw [hGet]) hKey hmk hne

/-- C6 witness: a cache whose only entry for the key is 1800001 ms old
(TTL 1800 s), accessed at that age: the lookup misses and deletes, and the
follow-up request performs exactly one upstream call. -/
theorem c6_expired_never_returned_witness :
    ((⟨[(⟨3, 1250, 85000, 120000, 95⟩, ⟨"stale", 0⟩)], 1800⟩ : ResponseCache).get
        ⟨3, 1250, 85000, 120000, 95⟩ 1800001).1 = none ∧
    findEntry (ResponseCache.getKey ⟨3, 1250, 85000, 120000, 95⟩)
      (((⟨[(⟨3, 1250, 85000, 120000, 95⟩, ⟨"stale", 0⟩)], 1800⟩ : ResponseCache).get
          ⟨3, 1250, 85000, 120000, 95⟩ 1800001).2).cache = none ∧
    handleAnalysis
        ⟨⟨30, 200, []⟩, ⟨[(⟨3, 1250, 85000, 120000, 95⟩, ⟨"stale", 0⟩)], 1800⟩⟩
        "client" 1800001 ⟨some 3, some 1250, some 85000, some 120000, some 95⟩
        (some "sk-live-key") 0
        (fun _ => AttemptOutcome.httpOk (some "fresh-text")) =
      (HandlerResult.fresh "fresh-text",
        ⟨(RateLimiter.isAllowed ⟨30, 200, []⟩ "client" 1800001).2,
          (((⟨[(⟨3, 1250, 85000, 120000, 95⟩, ⟨"stale", 0⟩)], 1800⟩ :
              ResponseCache).get ⟨3, 1250, 85000, 120000, 95⟩ 1800001).2).set
            ⟨3, 1250, 85000, 120000, 95⟩ "fresh-text" 1800001⟩, 1) :=
  c6_expired_never_returned ⟨30, 200, []⟩
    ⟨[(⟨3, 1250, 85000, 120000, 95⟩, ⟨"stale", 0⟩)], 1800⟩
    ⟨3, 1250, 85000, 120000, 95⟩ ⟨"stale", 0⟩ "client" 1800001
    ⟨some 3, some 1250, some 85000, some 120000, some 95⟩ (some "sk-live-key") 0
    (fun _ => AttemptOutcome.httpOk (some "fresh-text")) "fresh-text"
    (by decide) (by decide) (by decide) (by decide) (by decide) (by decide)
    (by rw [makeRequest_unfold]; rfl) (by decide)

-- ==================== CLAIM C7 ====================

/-- One admitted step of the C7 trace: with `k < maxPerMinute` requests of
client `c` on record at times `t, t+1, …, t+k-1` (all inside the minute
window at time `t+k`), the check at `t+k` is allowed and appends the new
timestamp. -/
theorem isAllowed_phase_step (m h k : ℕ) (t : ℤ) (c : String)
    (hk : k < m) (hmh : m < h) (hm60 : m < 60000) :
    RateLimiter.isAllowed
        ⟨m, h, (List.range k).map (fun (i : ℕ) => (c, t + (i : ℤ)))⟩
        c (t + (k : ℤ)) =
      (true, ⟨m, h, (List.range (k + 1)).map (fun (i : ℕ) => (c, t + (i : ℤ)))⟩) := by
  have hprune : List.filter (fun r => decide (t + (k : ℤ) - 60 * 60 * 1000 < r.2))
      ((List.range k).map (fun (i : ℕ) => (c, t + (i : ℤ)))) =
      (List.range k).map (fun (i : ℕ) => (c, t + (i : ℤ))) := by
    apply List.filter_eq_self.mpr
    intro x hx
    simp only [List.mem_map, List.mem_range] at hx
    obtain ⟨i, hi, rfl⟩ := hx
    simp only [decide_eq_true_eq]
    show t + (k : ℤ) - 60 * 60 * 1000 < t + (i : ℤ)
    omega
  have hminute : List.filter
      (fun r => decide (r.1 = c ∧ t + (k : ℤ) - 60 * 1000 < r.2))
      ((List.range k).map (fun (i : ℕ) => (c, t + (i : ℤ)))) =
      (List.range k).map (fun (i : ℕ) => (c, t + (i : ℤ))) := by
    apply List.filter_eq_self.mpr
    intro x hx
    simp only [List.mem_map, List.mem_range] at hx
    obtain ⟨i, hi, rfl⟩ := hx
    simp only [decide_eq_true_eq]
    refine ⟨by trivial, ?_⟩
    show t + (k : ℤ) - 60 * 1000 < t + (i : ℤ)
    omega
  have hhour : List.filter (fun r => decide (r.1 = c))
      ((List.range k).map (fun (i : ℕ) => (c, t + (i : ℤ)))) =
      (List.range k).map (fun (i : ℕ) => (c, t + (i : ℤ))) := by
    apply List.filter_eq_self.mpr
    intro x hx
    simp only [List.mem_map, List.mem_range] at hx
    obtain ⟨i, hi, rfl⟩ := hx
    simp
  unfold RateLimiter.isAllowed
  dsimp only
  rw [hprune, hminute, hhour]
  simp only [List.length_map, List.length_range]
  rw [if_neg (by omega), if_neg (by omega)]
  rw [List.range_succ, List.map_append]
  rfl

/-- The denial step of the C7 trace: with `maxPerMinute` requests of
client `c` on record at times `t, …, t+m-1`, all still inside the minute
window at time `t+m`, the next check is denied and the record is left as
it was (the prune keeps everything). -/
theorem isAllowed_denied_step (m h : ℕ) (t : ℤ) (c : String)
    (_hmh : m < h) (hm60 : m < 60000) :
    RateLimiter.isAllowed
        ⟨m, h, (List.range m).map (fun (i : ℕ) => (c, t + (i : ℤ)))⟩
        c (t + (m : ℤ)) =
      (false, ⟨m, h, (List.range m).map (fun (i : ℕ) => (c, t + (i : ℤ)))⟩) := by
  have hprune : List.filter (fun r => decide (t + (m : ℤ) - 60 * 60 * 1000 < r.2))
      ((List.range m).map (fun (i : ℕ) => (c, t + (i : ℤ)))) =
      (List.range m).map (fun (i : ℕ) => (c, t + (i : ℤ))) := by
    apply List.filter_eq_self.mpr
    intro x hx
    simp only [List.mem_map, List.mem_range] at hx
    obtain ⟨i, hi, rfl⟩ := hx
    simp only [decide_eq_true_eq]
    show t + (m : ℤ) - 60 * 60 * 1000 < t + (i : ℤ)
    omega
  have hminute : List.filter
      (fun r => decide (r.1 = c ∧ t + (m : ℤ) - 60 * 1000 < r.2))
      ((List.range m).map (fun (i : ℕ) => (c, t + (i : ℤ)))) =
      (List.range m).map (fun (i : ℕ) => (c, t + (i : ℤ))) := by
    apply List.filter_eq_self.mpr
    intro x hx
    simp only [List.mem_map, List.mem_range] at hx
    obtain ⟨i, hi, rfl⟩ := hx
    simp only [decide_eq_true_eq]
    refine ⟨by trivial, ?_⟩
    show t + (m : ℤ) - 60 * 1000 < t + (i : ℤ)
    omega
  unfold RateLimiter.isAllowed
  dsimp only
  rw [hprune, hminute]
  simp only [List.length_map, List.length_range]
  rw [if_pos (by omega)]

/-- The readmission step of the C7 trace: at time `t + 60000` the oldest
timestamp `t` has fallen outside the minute window, only `m - 1` of the
`m` recorded timestamps still count, so the check is allowed again and
appends its timestamp. -/
theorem isAllowed_readmit_step (m h : ℕ) (t : ℤ) (c : String)
    (hm : 1 ≤ m) (hmh : m < h) (hm60 : m < 60000) :
    RateLimiter.isAllowed
        ⟨m, h, (List.range m).map (fun (i : ℕ) => (c, t + (i : ℤ)))⟩
        c (t + 60000) =
      (true, ⟨m, h,
        ((List.range m).map (fun (i : ℕ) => (c, t + (i : ℤ)))) ++
          [(c, t + 60000)]⟩) := by
  obtain ⟨n, rfl⟩ : ∃ n, m = n + 1 := ⟨m - 1, by omega⟩
  have hprune : List.filter (fun r => decide (t + 60000 - 60 * 60 * 1000 < r.2))
      ((List.range (n + 1)).map (fun (i : ℕ) => (c, t + (i : ℤ)))) =
      (List.range (n + 1)).map (fun (i : ℕ) => (c, t + (i : ℤ))) := by
    apply List.filter_eq_self.mpr
    intro x hx
    simp only [List.mem_map, List.mem_range] at hx
    obtain ⟨i, hi, rfl⟩ := hx
    simp only [decide_eq_true_eq]
    show t + 60000 - 60 * 60 * 1000 < t + (i : ℤ)
    omega
  have hminute : List.filter
      (fun r => decide (r.1 = c ∧ t + 60000 - 60 * 1000 < r.2))
      ((List.range (n + 1)).map (fun (i : ℕ) => (c, t + (i : ℤ)))) =
      ((List.range n).map Nat.succ).map (fun (i : ℕ) => (c, t + (i : ℤ))) := by
    rw [List.filter_map]
    congr 1
    rw [List.range_succ_eq_map]
    rw [List.filter_cons_of_neg (by
      simp only [Function.comp_apply, decide_eq_true_eq, not_and]
      intro hc
      show ¬ t + 60000 - 60 * 1000 < t + ((0 : ℕ) : ℤ)
      omega)]
    apply List.filter_eq_self.mpr
    intro x hx
    simp only [List.mem_map] at hx
    obtain ⟨i, hi, rfl⟩ := hx
    simp only [Function.comp_apply, decide_eq_true_eq]
    refine ⟨by trivial, ?_⟩
    show t + 60000 - 60 * 1000 < t + ((Nat.succ i : ℕ) : ℤ)
    omega
  have hhour : List.filter (fun r => decide (r.1 = c))
      ((List.range (n + 1)).map (fun (i : ℕ) => (c, t + (i : ℤ)))) =
      (List.range (n + 1)).map (fun (i : ℕ) => (c, t + (i : ℤ))) := by
    apply List.filter_eq_self.mpr
    intro x hx
    simp only [List.mem_map, List.mem_range] at hx
    obtain ⟨i, hi, rfl⟩ := hx
    simp
  unfold RateLimiter.isAllowed
  dsimp only
  rw [hprune, hminute, hhour]
  simp only [List.length_map, List.length_range]
  rw [if_neg (by omega), if_neg (by omega)]

/-- `runChecks` distributes over list append. -/
theorem runChecks_append (rl : RateLimiter) (c : String) (l1 l2 : List ℤ) :
    runChecks rl c (l1 ++ l2) =
      ((runChecks rl c l1).1 ++ (runChecks (runChecks rl c l1).2 c l2).1,
        (runChecks (runChecks rl c l1).2 c l2).2) := by
  induction l1 generalizing rl with
  | nil => rfl
  | cons x xs ih =>
      rw [List.cons_append, runChecks, runChecks, ih]
      rfl

/-- The admission phase of the C7 trace: starting with `k` recorded
timestamps `t, …, t+k-1` and checking at times `t+k, …, t+m-1`, every
check is allowed and the record grows to the full `m` timestamps. -/
theorem runChecks_phase (m h : ℕ) (t : ℤ) (c : String)
    (hmh : m < h) (hm60 : m < 60000) :
    ∀ j k, k + j = m →
      runChecks ⟨m, h, (List.range k).map (fun (i : ℕ) => (c, t + (i : ℤ)))⟩ c
          ((List.range j).map (fun (i : ℕ) => t + ((k + i : ℕ) : ℤ))) =
        (List.replicate j true,
          ⟨m, h, (List.range m).map (fun (i : ℕ) => (c, t + (i : ℤ)))⟩) := by
  intro j
  induction j with
  | zero =>
      intro k hk
      obtain rfl : k = m := by omega
      rfl
  | succ n ih =>
      intro k hk
      rw [List.range_succ_eq_map, List.map_cons, List.map_map]
      rw [List.map_congr_left
        (g := fun (i : ℕ) => t + (((k + 1) + i : ℕ) : ℤ)) (by
          intro i hi
          simp only [Function.comp_apply]
          congr 1
          push_cast
          ring)]
      rw [runChecks]
      have hstep := isAllowed_phase_step m h k t c (by omega) hmh hm60
      have h0 : t + ((k + 0 : ℕ) : ℤ) = t + (k : ℤ) := by norm_num
      rw [h0, hstep]
      dsimp only
      rw [ih (k + 1) (by omega)]
      dsimp only
      rw [List.replicate_succ]

/-- C7 (confirmed, as a trace): starting from a fresh limiter with minute
limit `m` (below the hour limit and the millisecond width of the minute
window), a client making requests at times `t, t+1, …, t+m-1` is admitted
`m` times; the `(m+1)`-th request, at `t+m` and still inside the minute
window, is denied; and the request at `t + 60000` — the moment the oldest
counted timestamp `t` has fallen outside the minute window — is admitted
again. -/
theorem c7_minute_window (m h : ℕ) (t : ℤ) (c : String)
    (hm : 1 ≤ m) (hmh : m < h) (hm60 : m < 60000) :
    runChecks ⟨m, h, []⟩ c
        (((List.range m).map (fun (i : ℕ) => t + (i : ℤ))) ++
          [t + (m : ℤ), t + 60000]) =
      (List.replicate m true ++ [false, true],
        ⟨m, h,
          ((List.range m).map (fun (i : ℕ) => (c, t + (i : ℤ)))) ++
            [(c, t + 60000)]⟩) := by
  rw [runChecks_append]
  have hphase := runChecks_phase m h t c hmh hm60 m 0 (by omega)
  rw [List.map_congr_left
    (g := fun (i : ℕ) => t + ((0 + i : ℕ) : ℤ))
    (fun i _ => by norm_num)]
  rw [show (⟨m, h, []⟩ : RateLimiter) =
    ⟨m, h, (List.range 0).map (fun (i : ℕ) => (c, t + (i : ℤ)))⟩ from rfl]
  rw [hphase]
  dsimp only
  rw [runChecks]
  rw [isAllowed_denied_step m h t c hmh hm60]
  dsimp only
  rw [runChecks]
  rw [isAllowed_readmit_step m h t c hm hmh hm60]
  rfl

/-- C7 witness: minute limit 2, hour limit 3, requests at times 0, 1
(admitted), 2 (denied), 60000 (admitted again). -/
theorem c7_minute_window_witness :
    runChecks ⟨2, 3, []⟩ "client"
        (((List.range 2).map (fun (i : ℕ) => (0 : ℤ) + (i : ℤ))) ++
          [(0 : ℤ) + ((2 : ℕ) : ℤ), (0 : ℤ) + 60000]) =
      (List.replicate 2 true ++ [false, true],
        ⟨2, 3,
          ((List.range 2).map (fun (i : ℕ) => ("client", (0 : ℤ) + (i : ℤ)))) ++
            [("client", (0 : ℤ) + 60000)]⟩) :=
  c7_minute_window 2 3 0 "client" (by omega) (by omega) (by omega)

end CurrencyDashboard
